import Mathlib

/-!
Shallow embedding of `src/bot.py` (tyzbit/discord-archiver).

Python values flowing through the bot (parsed JSON bodies, the handled-message
list, HTTP responses) are modelled explicitly; the network and the URL
extractor are oracles supplied in an `Env`.  Side effects (HTTP calls issued,
messages sent, the handled-message list) are threaded through an `Effects`
record.  Python exceptions are modelled with `Except String`.
-/

namespace Archiver

/-- A Python/JSON value as produced by `response.json()`. -/
inductive Json where
  | null : Json
  | bool : Bool → Json
  | num : Int → Json
  | str : String → Json
  | arr : List Json → Json
  | obj : List (String × Json) → Json
deriving Repr

/-- Python truthiness (`if val:`) for the modelled values. -/
def Json.truthy : Json → Bool
  | .null => false
  | .bool b => b
  | .num n => n != 0
  | .str s => s != ""
  | .arr xs => !xs.isEmpty
  | .obj fs => !fs.isEmpty

/-- Python `v.get(key, default)`: defined on dicts, raises `AttributeError`
on any other (non-dict) receiver. -/
def pyGet (v : Json) (key : String) (default : Json) : Except String Json :=
  match v with
  | .obj fs => .ok ((fs.lookup key).getD default)
  | _ => .error "AttributeError"

/-- One iteration's value computation of `DictQuery.get` (bot.py lines
20-27): on a truthy list map `v.get` over the elements, on any other truthy
value call `val.get`, and on a falsy `val` (only the first iteration) read
from `self`. -/
def dqStep (self val : Json) (key : String) (default : Json) : Except String Json :=
  if val.truthy then
    match val with
    | .arr vs =>
      match vs.mapM (fun v => if v.truthy then pyGet v key default else pure Json.null) with
      | .ok mapped => .ok (Json.arr mapped)
      | .error e => .error e
    | _ => pyGet val key default
  else
    pyGet self key default

/-- The loop of `DictQuery.get` (bot.py lines 16-32): iterate over the path
segments, carrying `val` (initially Python `None`); break as soon as `val`
is falsy. -/
def dqLoop (self : Json) (default : Json) : List String → Json → Except String Json
  | [], val => .ok val
  | key :: rest, val =>
    match dqStep self val key default with
    | .error e => .error e
    | .ok val' => if val'.truthy then dqLoop self default rest val' else .ok val'

/-- Helper for `pySplit`: walk the characters, cutting at each separator. -/
def pySplitAux (sep : Char) : List Char → List Char → List String
  | [], acc => [String.mk acc.reverse]
  | c :: cs, acc =>
    if c = sep then String.mk acc.reverse :: pySplitAux sep cs []
    else pySplitAux sep cs (c :: acc)

/-- Python `s.split(sep)` for a one-character separator (e.g.
`"a/b".split("/") = ["a", "b"]`, `"".split("/") = [""]`). -/
def pySplit (s : String) (sep : Char) : List String :=
  pySplitAux sep s.data []

/-- `DictQuery(self).get(path, default)` from bot.py: split the path on `/`
and run the traversal loop. -/
def DictQuery.get (self : Json) (path : String) (default : Json := Json.null) :
    Except String Json :=
  dqLoop self default (pySplit path '/') Json.null

/-- The path used by `handle_archive_react`. -/
def waybackPath : String := "archived_snapshots/closest/url"

/-- An HTTP response as seen by the bot (`requests` response object). -/
structure HttpResp where
  status_code : Nat
  headers : List (String × String)
  content : String
deriving Repr, DecidableEq

/-- The reacted-to message: identifier, text content, origin channel
(`none` models `message.channel == None`). -/
structure Message where
  id : Nat
  content : String
  channelId : Option Nat
deriving Repr, DecidableEq

/-- A payload handed to `user.send` / `channel.send`: either a (Python) value
passed as text, or a status embed. -/
structure StatusEmbed where
  title : String
  color : Nat
  fields : List (String × String)
deriving Repr, DecidableEq

inductive Payload where
  | text : Json → Payload
  | embed : StatusEmbed → Payload
deriving Repr

/-- One outbound chat message. -/
inductive Sent where
  | dm : Nat → Payload → Sent
  | toChannel : Nat → Payload → Sent
deriving Repr

/-- The environment: configuration plus the two archive-service endpoints as
oracles (`Except.error` models a raised transport/parse exception). -/
structure Env where
  messageTarget : String
  administratorIds : List Nat
  lookupResp : String → Except String Json
  saveResp : String → Except String HttpResp

/-- Accumulated observable effects: archive-service calls issued, chat
messages sent, and `bot_state.handled_messages`. -/
structure Effects where
  lookupCalls : List String
  saveCalls : List String
  sent : List Sent
  handled : List Nat
deriving Repr

/-- `respond_to_user` (bot.py lines 88-107): DM when the target mode is
`user` or the message has no channel; otherwise send to the channel unless
the message id is already handled and no forced repeat, and append the id
to the handled list on every channel send.  In the channel branch the
message is known to have a channel; `Option.getD 0` is the total read of
it. -/
def respond_to_user (env : Env) (msg : Message) (user : Nat) (p : Payload)
    (repeat_react : Option Bool) (eff : Effects) : Effects :=
  if env.messageTarget = "user" ∨ msg.channelId = none then
    { eff with sent := eff.sent ++ [.dm user p] }
  else if msg.id ∉ eff.handled ∨ repeat_react = some true then
    { eff with sent := eff.sent ++ [.toChannel (msg.channelId.getD 0) p],
               handled := eff.handled ++ [msg.id] }
  else
    eff

/-- The fixed decline message of bot.py line 166. -/
def declineMessage : String :=
  "The Internet Archive declined to crawl the link you reacted to.  Sorry."

/-- `handle_page_save_request` (bot.py lines 159-179): on 301/302 read the
`Location` header and route through `respond_to_user` (a missing header is
the caught exception: log only); on 520/523 DM the fixed decline message
directly; anything else is log-only. -/
def handle_page_save_request (env : Env) (msg : Message) (user : Nat) (_url : String)
    (response : HttpResp) (repeat_react : Option Bool) (eff : Effects) : Effects :=
  if response.status_code = 302 ∨ response.status_code = 301 then
    match response.headers.lookup "Location" with
    | some loc => respond_to_user env msg user (.text (.str loc)) repeat_react eff
    | none => eff
  else if response.status_code = 523 ∨ response.status_code = 520 then
    { eff with sent := eff.sent ++ [.dm user (.text (.str declineMessage))] }
  else
    eff

/-- The per-URL loop of `handle_archive_react` (bot.py lines 125-140): look
up the snapshot, on a truthy extracted url respond with it; otherwise call
`save_page`, and on a save exception log and `return` — aborting the whole
loop.  A lookup or `DictQuery` exception propagates out (`Except.error`). -/
def archiveLoop (env : Env) (msg : Message) (user : Nat) :
    List String → Effects → Effects × Option String
  | [], eff => (eff, none)
  | url :: rest, eff =>
    let eff1 := { eff with lookupCalls := eff.lookupCalls ++ [url] }
    match env.lookupResp url with
    | .error e => (eff1, some e)
    | .ok j =>
      match DictQuery.get j waybackPath with
      | .error e => (eff1, some e)
      | .ok wayback_url =>
        if wayback_url.truthy then
          archiveLoop env msg user rest
            (respond_to_user env msg user (.text wayback_url) none eff1)
        else
          let eff2 := { eff1 with saveCalls := eff1.saveCalls ++ [url] }
          match env.saveResp url with
          | .error _ => (eff2, none)
          | .ok response =>
            archiveLoop env msg user rest
              (handle_page_save_request env msg user url response (some false) eff2)

/-- `handle_archive_react` (bot.py lines 118-140). -/
def handle_archive_react (env : Env) (extractor : String → List String)
    (msg : Message) (user : Nat) (eff : Effects) : Effects × Option String :=
  archiveLoop env msg user (extractor msg.content) eff

/-- The per-URL loop of `handle_repeat_react` (bot.py lines 149-157): try
`save_page` (a failure is caught and logged, leaving the local `response`
variable at its previous binding, modelled by the `Option HttpResp`
argument); then try `handle_page_save_request` on whatever `response` holds
(an unbound `response` is the caught `NameError`: log only). -/
def repeatLoop (env : Env) (msg : Message) (user : Nat) :
    List String → Option HttpResp → Effects → Effects
  | [], _, eff => eff
  | url :: rest, respVar, eff =>
    let eff1 := { eff with saveCalls := eff.saveCalls ++ [url] }
    let respVar' := match env.saveResp url with
      | .ok r => some r
      | .error _ => respVar
    match respVar' with
    | some r =>
      repeatLoop env msg user rest respVar'
        (handle_page_save_request env msg user url r (some true) eff1)
    | none => repeatLoop env msg user rest respVar' eff1

/-- `handle_repeat_react` (bot.py lines 142-157). -/
def handle_repeat_react (env : Env) (extractor : String → List String)
    (msg : Message) (user : Nat) (eff : Effects) : Effects :=
  repeatLoop env msg user (extractor msg.content) none eff

/-- The comma-joined guild list built by `status_command`
(bot.py lines 187-195). -/
def guildListStr (names : List String) : String :=
  (names.foldl (fun (acc : String × Nat) name =>
    (if acc.2 > 0 then acc.1 ++ ", " ++ name else name, acc.2 + 1)) ("", 0)).1

/-- Read-only chat-client view used by the status command. -/
structure Client where
  guilds : List String
  cached_messages : Nat
  private_channels : Nat

/-- The embed built by `status_command` (bot.py lines 197-203). -/
def statusEmbed (client : Client) (eff : Effects) : StatusEmbed :=
  { title := "Archive.org status"
    color := 16753920
    fields := [("Guild list", guildListStr client.guilds),
               ("Cached messages", toString client.cached_messages),
               ("Private messages", toString client.private_channels),
               ("Response messages", toString eff.handled.length)] }

/-- `status_command` (bot.py lines 181-206): non-admins get a debug log and
nothing else; admins get exactly one DM carrying the status embed. -/
def status_command (env : Env) (client : Client) (authorId : Nat)
    (eff : Effects) : Effects :=
  if authorId ∉ env.administratorIds then
    eff
  else
    { eff with sent := eff.sent ++ [.dm authorId (.embed (statusEmbed client eff))] }

end Archiver

namespace Archiver

/-! ## Concrete fixtures used by witnesses and counterexamples -/

/-- Empty effect state: fresh process, empty `handled_messages`. -/
def eff0 : Effects := { lookupCalls := [], saveCalls := [], sent := [], handled := [] }

/-- A channel-target configuration with well-behaved endpoints. -/
def envA : Env :=
  { messageTarget := "channel", administratorIds := [1],
    lookupResp := fun _ => .ok (.obj []),
    saveResp := fun _ => .ok { status_code := 302, headers := [("Location", "L")], content := "" } }

/-- Channel-target configuration whose save endpoint always raises. -/
def envFailSave : Env :=
  { messageTarget := "channel", administratorIds := [],
    lookupResp := fun _ => .ok (.obj []),
    saveResp := fun _ => .error "ConnectionError" }

/-- Channel-target configuration whose save endpoint returns status 523. -/
def envChan523 : Env :=
  { messageTarget := "channel", administratorIds := [],
    lookupResp := fun _ => .ok (.obj []),
    saveResp := fun _ => .ok { status_code := 523, headers := [], content := "" } }

/-- Channel-target configuration whose lookup always finds a snapshot. -/
def envFound : Env :=
  { messageTarget := "channel", administratorIds := [],
    lookupResp := fun _ =>
      .ok (.obj [("archived_snapshots", .obj [("closest", .obj [("url", .str "W")])])]),
    saveResp := fun _ => .error "unused" }

/-- DM-target variant of `envFound`. -/
def envFoundUser : Env :=
  { envFound with messageTarget := "user" }

def msgTwo : Message := { id := 2, content := "two", channelId := some 10 }

def msgOne : Message := { id := 3, content := "one", channelId := some 10 }

/-- Extractor oracle yielding two URLs on `msgTwo`'s content. -/
def extTwo : String → List String := fun s => if s = "two" then ["u1", "u2"] else []

/-- Extractor oracle yielding one URL on `msgOne`'s content. -/
def extOne : String → List String := fun s => if s = "one" then ["u1"] else []

def clientA : Client := { guilds := ["g1", "g2"], cached_messages := 4, private_channels := 2 }

/-- Effect state in which message id 3 has already been answered in-channel. -/
def effHandled3 : Effects := { lookupCalls := [], saveCalls := [], sent := [], handled := [3] }

/-- A successful save-trigger response: 302 with a Location header. -/
def respRedir : HttpResp := { status_code := 302, headers := [("Location", "L")], content := "" }

/-- A declined save-trigger response. -/
def respDecline : HttpResp := { status_code := 523, headers := [], content := "" }

/-! ## Helper lemmas -/

theorem respond_calls (env : Env) (msg : Message) (user : Nat) (p : Payload)
    (rr : Option Bool) (eff : Effects) :
    (respond_to_user env msg user p rr eff).lookupCalls = eff.lookupCalls ∧
    (respond_to_user env msg user p rr eff).saveCalls = eff.saveCalls := by
  unfold respond_to_user
  split_ifs <;> exact ⟨rfl, rfl⟩

theorem hpsr_calls (env : Env) (msg : Message) (user : Nat) (url : String)
    (r : HttpResp) (rr : Option Bool) (eff : Effects) :
    (handle_page_save_request env msg user url r rr eff).lookupCalls = eff.lookupCalls ∧
    (handle_page_save_request env msg user url r rr eff).saveCalls = eff.saveCalls := by
  unfold handle_page_save_request
  repeat' split
  all_goals first
    | exact ⟨rfl, rfl⟩
    | exact respond_calls env msg user (.text (.str _)) rr eff

theorem repeatLoop_calls (env : Env) (msg : Message) (user : Nat) (urls : List String) :
    ∀ (rv : Option HttpResp) (eff : Effects),
    (repeatLoop env msg user urls rv eff).saveCalls = eff.saveCalls ++ urls ∧
    (repeatLoop env msg user urls rv eff).lookupCalls = eff.lookupCalls := by
  induction urls with
  | nil => intro rv eff; simp [repeatLoop]
  | cons url rest ih =>
    intro rv eff
    unfold repeatLoop
    cases hs : env.saveResp url with
    | ok r =>
      simp only [hs]
      have h := ih (some r)
        (handle_page_save_request env msg user url r (some true)
          { eff with saveCalls := eff.saveCalls ++ [url] })
      have hc := hpsr_calls env msg user url r (some true)
        { eff with saveCalls := eff.saveCalls ++ [url] }
      refine ⟨?_, ?_⟩
      · rw [h.1, hc.2]; simp
      · rw [h.2, hc.1]
    | error e =>
      simp only [hs]
      cases rv with
      | none =>
        have h := ih none { eff with saveCalls := eff.saveCalls ++ [url] }
        refine ⟨?_, ?_⟩
        · rw [h.1]; simp
        · rw [h.2]
      | some r =>
        have h := ih (some r)
          (handle_page_save_request env msg user url r (some true)
            { eff with saveCalls := eff.saveCalls ++ [url] })
        have hc := hpsr_calls env msg user url r (some true)
          { eff with saveCalls := eff.saveCalls ++ [url] }
        refine ⟨?_, ?_⟩
        · rw [h.1, hc.2]; simp
        · rw [h.2, hc.1]

end Archiver

namespace Archiver

theorem respond_dm (env : Env) (msg : Message) (user : Nat) (p : Payload)
    (rr : Option Bool) (eff : Effects)
    (h : env.messageTarget = "user" ∨ msg.channelId = none) :
    respond_to_user env msg user p rr eff = { eff with sent := eff.sent ++ [.dm user p] } := by
  unfold respond_to_user
  rw [if_pos h]

theorem respond_channel_send (env : Env) (msg : Message) (user : Nat) (p : Payload)
    (rr : Option Bool) (eff : Effects) (c : Nat)
    (ht : env.messageTarget ≠ "user") (hc : msg.channelId = some c)
    (h : msg.id ∉ eff.handled ∨ rr = some true) :
    respond_to_user env msg user p rr eff
      = { eff with sent := eff.sent ++ [.toChannel c p],
                   handled := eff.handled ++ [msg.id] } := by
  unfold respond_to_user
  rw [if_neg (by rw [hc]; simp [ht]), if_pos h, hc]
  rfl

theorem respond_channel_suppress (env : Env) (msg : Message) (user : Nat) (p : Payload)
    (rr : Option Bool) (eff : Effects) (c : Nat)
    (ht : env.messageTarget ≠ "user") (hc : msg.channelId = some c)
    (h1 : msg.id ∈ eff.handled) (h2 : rr ≠ some true) :
    respond_to_user env msg user p rr eff = eff := by
  unfold respond_to_user
  rw [if_neg (by rw [hc]; simp [ht]),
      if_neg (by push_neg; exact ⟨h1, h2⟩)]

/-- One found-lookup step of the archive loop. -/
theorem archiveLoop_found_step (env : Env) (msg : Message) (user : Nat)
    (u : String) (rest : List String) (eff : Effects) (j w : Json)
    (hlk : env.lookupResp u = .ok j)
    (hdq : DictQuery.get j waybackPath = .ok w)
    (htr : w.truthy = true) :
    archiveLoop env msg user (u :: rest) eff
      = archiveLoop env msg user rest
          (respond_to_user env msg user (.text w) none
            { eff with lookupCalls := eff.lookupCalls ++ [u] }) := by
  conv_lhs => rw [archiveLoop]
  simp only [hlk, hdq, htr, if_true]

end Archiver

namespace Archiver

/-! ## Claim theorems -/

/-- C6: for every message text from which the extractor finds N URLs, the
force-rearchive workflow issues exactly those N save-trigger requests (one
per URL, in order) and zero snapshot-lookup requests. -/
theorem c6_repeat_saves_no_lookups (env : Env) (extractor : String → List String)
    (msg : Message) (user : Nat) (eff : Effects) :
    (handle_repeat_react env extractor msg user eff).saveCalls
      = eff.saveCalls ++ extractor msg.content ∧
    (handle_repeat_react env extractor msg user eff).lookupCalls = eff.lookupCalls :=
  repeatLoop_calls env msg user (extractor msg.content) none eff

/-- C7: when the extractor finds zero URLs, both workflows terminate with
no replies, no archive-service calls, no handled-set change, and no
exception. -/
theorem c7_no_urls_no_action (env : Env) (extractor : String → List String)
    (msg : Message) (user : Nat) (eff : Effects)
    (h : extractor msg.content = []) :
    handle_archive_react env extractor msg user eff = (eff, none) ∧
    handle_repeat_react env extractor msg user eff = eff := by
  unfold handle_archive_react handle_repeat_react
  rw [h]
  exact ⟨rfl, rfl⟩

theorem c7_witness :
    (fun (_ : String) => ([] : List String)) msgOne.content = [] ∧
    (handle_archive_react envA (fun _ => []) msgOne 7 eff0 = (eff0, none) ∧
     handle_repeat_react envA (fun _ => []) msgOne 7 eff0 = eff0) :=
  ⟨rfl, c7_no_urls_no_action envA (fun _ => []) msgOne 7 eff0 rfl⟩

/-- C1 counterexample: in the archive-check workflow with two URLs and a
save-trigger transport failure on the first, the second URL is never looked
up or saved — the handler returned early, so the sibling URL's processing
did not run, contradicting the claimed per-URL isolation. -/
theorem c1_cex :
    extTwo msgTwo.content = ["u1", "u2"] ∧
    (handle_archive_react envFailSave extTwo msgTwo 7 eff0).1.lookupCalls = ["u1"] ∧
    (handle_archive_react envFailSave extTwo msgTwo 7 eff0).1.saveCalls = ["u1"] ∧
    "u2" ∉ (handle_archive_react envFailSave extTwo msgTwo 7 eff0).1.lookupCalls ∧
    (handle_archive_react envFailSave extTwo msgTwo 7 eff0).2 = none :=
  ⟨rfl, rfl, rfl, by decide, rfl⟩

/-- C1 (amended): per-URL failure isolation holds in the force-rearchive
workflow — every URL gets its save attempt no matter what happened on the
others — but not in the archive-check workflow: there, a save_page
exception on a URL makes the handler log and return, so the remaining URLs
of the same event are not processed at all. -/
theorem c1_isolation :
    (∀ (env : Env) (extractor : String → List String) (msg : Message)
       (user : Nat) (eff : Effects),
       (handle_repeat_react env extractor msg user eff).saveCalls
         = eff.saveCalls ++ extractor msg.content) ∧
    (∀ (env : Env) (msg : Message) (user : Nat) (u : String) (rest : List String)
       (eff : Effects) (j w : Json) (e : String),
       env.lookupResp u = .ok j →
       DictQuery.get j waybackPath = .ok w →
       w.truthy = false →
       env.saveResp u = .error e →
       archiveLoop env msg user (u :: rest) eff
         = ({ eff with lookupCalls := eff.lookupCalls ++ [u],
                       saveCalls := eff.saveCalls ++ [u] }, none)) := by
  constructor
  · intro env extractor msg user eff
    exact (repeatLoop_calls env msg user (extractor msg.content) none eff).1
  · intro env msg user u rest eff j w e h1 h2 h3 h4
    conv_lhs => rw [archiveLoop]
    simp [h1, h2, h3, h4]

theorem c1_witness :
    ((handle_repeat_react envFailSave extTwo msgTwo 7 eff0).saveCalls
       = eff0.saveCalls ++ extTwo msgTwo.content) ∧
    (envFailSave.lookupResp "u1" = .ok (.obj []) ∧
     DictQuery.get (.obj []) waybackPath = .ok .null ∧
     Json.null.truthy = false ∧
     envFailSave.saveResp "u1" = .error "ConnectionError" ∧
     archiveLoop envFailSave msgTwo 7 ["u1", "u2"] eff0
       = ({ eff0 with lookupCalls := eff0.lookupCalls ++ ["u1"],
                      saveCalls := eff0.saveCalls ++ ["u1"] }, none)) :=
  ⟨c1_isolation.1 envFailSave extTwo msgTwo 7 eff0,
   rfl, rfl, rfl, rfl,
   c1_isolation.2 envFailSave msgTwo 7 "u1" ["u2"] eff0 (.obj []) .null
     "ConnectionError" rfl rfl rfl rfl⟩

/-- C2 counterexample: with response-target mode `channel` and a message
that has a channel, a 523 save-trigger response still produces a direct
message (bot.py line 166 calls `send_dm` directly), not a channel reply via
the Response Router as the claim requires. -/
theorem c2_cex :
    envChan523.messageTarget = "channel" ∧
    msgOne.channelId = some 10 ∧
    (handle_archive_react envChan523 extOne msgOne 7 eff0).1.sent
      = [.dm 7 (.text (.str declineMessage))] :=
  ⟨rfl, rfl, rfl⟩

/-- C2 (amended): on a 520/523 save-trigger response the user-visible reply
is exactly the fixed decline string, but it is always delivered as a direct
message to the reacting user, bypassing the Response Router entirely —
regardless of the configured response-target mode, the message's channel,
or the forced-repeat flag; the handled set is not touched. -/
theorem c2_decline_always_dm (env : Env) (msg : Message) (user : Nat)
    (url : String) (r : HttpResp) (rr : Option Bool) (eff : Effects)
    (h : r.status_code = 523 ∨ r.status_code = 520) :
    handle_page_save_request env msg user url r rr eff
      = { eff with sent := eff.sent ++ [.dm user (.text (.str declineMessage))] } := by
  have h2 : ¬(r.status_code = 302 ∨ r.status_code = 301) := by
    rcases h with h | h <;> rw [h] <;> decide
  unfold handle_page_save_request
  rw [if_neg h2, if_pos h]

theorem c2_witness :
    (respDecline.status_code = 523 ∨ respDecline.status_code = 520) ∧
    handle_page_save_request envChan523 msgOne 7 "u1" respDecline (some false) eff0
      = { eff0 with sent := eff0.sent ++ [.dm 7 (.text (.str declineMessage))] } :=
  ⟨Or.inl rfl,
   c2_decline_always_dm envChan523 msgOne 7 "u1" respDecline (some false) eff0 (Or.inl rfl)⟩

/-- C4 counterexample: a forced repeat in channel mode on a message whose
id 3 is already in the handled list appends the id again — the handled
list becomes `[3, 3]`, a duplicate entry, contradicting the claim that the
id is appended only when not already present. -/
theorem c4_cex :
    (respond_to_user envChan523 msgOne 7 (.text (.str "x")) (some true) effHandled3).handled
      = [3, 3] ∧
    ¬ (respond_to_user envChan523 msgOne 7 (.text (.str "x")) (some true) effHandled3).handled.Nodup :=
  ⟨rfl, by decide⟩

/-- C4 (amended): on every channel send the Response Router appends the
message identifier to the handled list unconditionally — in particular a
forced repeat on an already-handled message appends a duplicate entry. -/
theorem c4_handled_appended (env : Env) (msg : Message) (user : Nat) (p : Payload)
    (rr : Option Bool) (eff : Effects) (c : Nat)
    (ht : env.messageTarget ≠ "user") (hc : msg.channelId = some c)
    (h : msg.id ∉ eff.handled ∨ rr = some true) :
    (respond_to_user env msg user p rr eff).handled = eff.handled ++ [msg.id] := by
  rw [respond_channel_send env msg user p rr eff c ht hc h]

theorem c4_witness :
    envChan523.messageTarget ≠ "user" ∧
    msgOne.channelId = some 10 ∧
    (msgOne.id ∉ effHandled3.handled ∨ (some true : Option Bool) = some true) ∧
    (respond_to_user envChan523 msgOne 7 (.text (.str "x")) (some true) effHandled3).handled
      = effHandled3.handled ++ [msgOne.id] :=
  ⟨by decide, rfl, Or.inr rfl,
   c4_handled_appended envChan523 msgOne 7 (.text (.str "x")) (some true) effHandled3 10
     (by decide) rfl (Or.inr rfl)⟩

/-- C10: in the force-rearchive loop a save_page failure does not skip the
classification step.  First conjunct: with the local `response` variable
still unbound, the classification attempt raises the caught NameError, so
the failed URL contributes nothing (no reply) and the loop continues.
Second conjunct: with `response` bound by an earlier URL, classification
runs on that previous URL's response object, so the failed URL can receive
a reply repeating the earlier URL's outcome. -/
theorem c10_stale_response :
    (∀ (env : Env) (msg : Message) (user : Nat) (u : String) (rest : List String)
       (eff : Effects) (e : String), env.saveResp u = .error e →
       repeatLoop env msg user (u :: rest) none eff
         = repeatLoop env msg user rest none
             { eff with saveCalls := eff.saveCalls ++ [u] }) ∧
    (∀ (env : Env) (msg : Message) (user : Nat) (u : String) (rest : List String)
       (eff : Effects) (r : HttpResp) (e : String), env.saveResp u = .error e →
       repeatLoop env msg user (u :: rest) (some r) eff
         = repeatLoop env msg user rest (some r)
             (handle_page_save_request env msg user u r (some true)
               { eff with saveCalls := eff.saveCalls ++ [u] })) := by
  constructor
  · intro env msg user u rest eff e h
    conv_lhs => rw [repeatLoop]
    simp [h]
  · intro env msg user u rest eff r e h
    conv_lhs => rw [repeatLoop]
    simp [h]

theorem c10_witness :
    envFailSave.saveResp "u1" = .error "ConnectionError" ∧
    (repeatLoop envFailSave msgTwo 7 ["u1", "u2"] none eff0
       = repeatLoop envFailSave msgTwo 7 ["u2"] none
           { eff0 with saveCalls := eff0.saveCalls ++ ["u1"] }) ∧
    (repeatLoop envFailSave msgTwo 7 ["u1"] (some respRedir) eff0
       = repeatLoop envFailSave msgTwo 7 [] (some respRedir)
           (handle_page_save_request envFailSave msgTwo 7 "u1" respRedir (some true)
             { eff0 with saveCalls := eff0.saveCalls ++ ["u1"] })) :=
  ⟨rfl,
   c10_stale_response.1 envFailSave msgTwo 7 "u1" ["u2"] eff0 "ConnectionError" rfl,
   c10_stale_response.2 envFailSave msgTwo 7 "u1" [] eff0 respRedir "ConnectionError" rfl⟩

end Archiver

namespace Archiver

theorem respond_lookupCalls (env : Env) (msg : Message) (user : Nat) (p : Payload)
    (rr : Option Bool) (eff : Effects) :
    (respond_to_user env msg user p rr eff).lookupCalls = eff.lookupCalls :=
  (respond_calls env msg user p rr eff).1

theorem respond_saveCalls (env : Env) (msg : Message) (user : Nat) (p : Payload)
    (rr : Option Bool) (eff : Effects) :
    (respond_to_user env msg user p rr eff).saveCalls = eff.saveCalls :=
  (respond_calls env msg user p rr eff).2

/-- C8: status-command access control — a non-administrator invocation
changes nothing (no reply leaks); an administrator invocation sends exactly
one direct message whose embed carries the guild list, the cached-message
count, the private-channel count, and the handled-message count. -/
theorem c8_status_access (env : Env) (client : Client) (authorId : Nat) (eff : Effects) :
    (authorId ∉ env.administratorIds → status_command env client authorId eff = eff) ∧
    (authorId ∈ env.administratorIds →
      status_command env client authorId eff
        = { eff with sent := eff.sent ++ [.dm authorId (.embed
            { title := "Archive.org status"
              color := 16753920
              fields := [("Guild list", guildListStr client.guilds),
                         ("Cached messages", toString client.cached_messages),
                         ("Private messages", toString client.private_channels),
                         ("Response messages", toString eff.handled.length)] })] }) := by
  constructor
  · intro h
    unfold status_command
    rw [if_pos h]
  · intro h
    unfold status_command
    rw [if_neg (not_not_intro h)]
    rfl

theorem c8_witness :
    ((7 ∉ envA.administratorIds) ∧ status_command envA clientA 7 eff0 = eff0) ∧
    ((1 ∈ envA.administratorIds) ∧
      status_command envA clientA 1 eff0
        = { eff0 with sent := eff0.sent ++ [.dm 1 (.embed
            { title := "Archive.org status"
              color := 16753920
              fields := [("Guild list", guildListStr clientA.guilds),
                         ("Cached messages", toString clientA.cached_messages),
                         ("Private messages", toString clientA.private_channels),
                         ("Response messages", toString eff0.handled.length)] })] }) :=
  ⟨⟨by decide, (c8_status_access envA clientA 7 eff0).1 (by decide)⟩,
   ⟨by decide, (c8_status_access envA clientA 1 eff0).2 (by decide)⟩⟩

end Archiver

namespace Archiver

/-- C3 counterexample: in channel-target mode with a found snapshot, the
first archive-check run replies in-channel, but a second run on the same
message sends nothing — the reply is suppressed by the handled-set check,
so the two runs do not yield identical replies. -/
theorem c3_cex :
    (handle_archive_react envFound extOne msgOne 7 eff0).1.sent
      = [.toChannel 10 (.text (.str "W"))] ∧
    (handle_archive_react envFound extOne msgOne 7
        (handle_archive_react envFound extOne msgOne 7 eff0).1).1.sent
      = [.toChannel 10 (.text (.str "W"))] :=
  ⟨rfl, rfl⟩

/-- C3 (amended): on a message with one URL whose lookup returns a truthy
snapshot url, neither of two consecutive archive-check runs issues a
save-trigger call or raises; when replies go by direct message (target mode
`user` or a channel-less message) the two runs yield identical replies; in
channel-target mode the first run replies in-channel and the second run's
reply is suppressed by the handled set. -/
theorem c3_idempotence (env : Env) (extractor : String → List String)
    (msg : Message) (user : Nat) (eff : Effects) (u : String) (j w : Json)
    (hext : extractor msg.content = [u])
    (hlk : env.lookupResp u = .ok j)
    (hdq : DictQuery.get j waybackPath = .ok w)
    (htr : w.truthy = true) :
    (handle_archive_react env extractor msg user eff).2 = none ∧
    (handle_archive_react env extractor msg user eff).1.saveCalls = eff.saveCalls ∧
    (handle_archive_react env extractor msg user
        (handle_archive_react env extractor msg user eff).1).1.saveCalls = eff.saveCalls ∧
    ((env.messageTarget = "user" ∨ msg.channelId = none) →
       (handle_archive_react env extractor msg user eff).1.sent
         = eff.sent ++ [.dm user (.text w)] ∧
       (handle_archive_react env extractor msg user
           (handle_archive_react env extractor msg user eff).1).1.sent
         = eff.sent ++ [.dm user (.text w)] ++ [.dm user (.text w)]) ∧
    (∀ c, env.messageTarget ≠ "user" → msg.channelId = some c → msg.id ∉ eff.handled →
       (handle_archive_react env extractor msg user eff).1.sent
         = eff.sent ++ [.toChannel c (.text w)] ∧
       (handle_archive_react env extractor msg user
           (handle_archive_react env extractor msg user eff).1).1.sent
         = eff.sent ++ [.toChannel c (.text w)]) := by
  have key : ∀ eff' : Effects,
      handle_archive_react env extractor msg user eff'
        = (respond_to_user env msg user (.text w) none
            { eff' with lookupCalls := eff'.lookupCalls ++ [u] }, none) := by
    intro eff'
    unfold handle_archive_react
    rw [hext, archiveLoop_found_step env msg user u [] eff' j w hlk hdq htr]
    rw [archiveLoop]
  refine ⟨by rw [key eff], ?_, ?_, ?_, ?_⟩
  · simp [key, respond_saveCalls]
  · simp [key, respond_saveCalls]
  · intro h
    rcases h with h | h
    · constructor <;> simp [key, respond_to_user, h]
    · constructor <;> simp [key, respond_to_user, h]
  · intro c ht hc hh
    constructor <;> simp [key, respond_to_user, ht, hc, hh]

end Archiver

namespace Archiver

theorem c3_witness :
    (handle_archive_react envFound extOne msgOne 7 eff0).2 = none ∧
    (handle_archive_react envFound extOne msgOne 7 eff0).1.saveCalls = eff0.saveCalls ∧
    (handle_archive_react envFound extOne msgOne 7 eff0).1.sent
      = eff0.sent ++ [.toChannel 10 (.text (.str "W"))] :=
  have h := c3_idempotence envFound extOne msgOne 7 eff0 "u1"
      (.obj [("archived_snapshots", .obj [("closest", .obj [("url", .str "W")])])])
      (.str "W") rfl rfl rfl rfl
  ⟨h.1, h.2.1, (h.2.2.2.2 10 (by decide) rfl (by decide)).1⟩

/-- All-found archive loop on an already-handled message in channel mode:
every URL is looked up, every reply is suppressed, nothing else changes. -/
theorem archiveLoop_suppressed (env : Env) (msg : Message) (user : Nat) (c : Nat)
    (lk w : String → Json)
    (ht : env.messageTarget ≠ "user") (hc : msg.channelId = some c) :
    ∀ (urls : List String) (eff : Effects), msg.id ∈ eff.handled →
    (∀ v ∈ urls, env.lookupResp v = .ok (lk v) ∧
       DictQuery.get (lk v) waybackPath = .ok (w v) ∧ (w v).truthy = true) →
    archiveLoop env msg user urls eff
      = ({ eff with lookupCalls := eff.lookupCalls ++ urls }, none) := by
  intro urls
  induction urls with
  | nil => intro eff hmem hall; simp [archiveLoop]
  | cons u rest ih =>
    intro eff hmem hall
    obtain ⟨h1, h2, h3⟩ := hall u (List.mem_cons_self u rest)
    rw [archiveLoop_found_step env msg user u rest eff (lk u) (w u) h1 h2 h3]
    rw [respond_channel_suppress env msg user (.text (w u)) none
         { eff with lookupCalls := eff.lookupCalls ++ [u] } c ht hc hmem (by simp)]
    rw [ih { eff with lookupCalls := eff.lookupCalls ++ [u] } hmem
         (fun v hv => hall v (List.mem_cons_of_mem u hv))]
    simp

/-- C9: deduplication is keyed on the message identifier alone, not on the
(message, URL) pair — in channel-target mode, a single non-forced
archive-check event whose URLs all have found snapshots sends exactly one
channel reply (the first URL's snapshot); replies for every later URL of
the same event are suppressed by the handled-set check, while every URL is
still looked up. -/
theorem c9_dedup_message_keyed (env : Env) (extractor : String → List String)
    (msg : Message) (user : Nat) (eff : Effects) (c : Nat) (u : String)
    (rest : List String) (lk w : String → Json)
    (ht : env.messageTarget ≠ "user") (hc : msg.channelId = some c)
    (hh : msg.id ∉ eff.handled)
    (hext : extractor msg.content = u :: rest)
    (hall : ∀ v ∈ u :: rest, env.lookupResp v = .ok (lk v) ∧
       DictQuery.get (lk v) waybackPath = .ok (w v) ∧ (w v).truthy = true) :
    handle_archive_react env extractor msg user eff
      = ({ eff with lookupCalls := eff.lookupCalls ++ (u :: rest),
                    sent := eff.sent ++ [.toChannel c (.text (w u))],
                    handled := eff.handled ++ [msg.id] }, none) := by
  unfold handle_archive_react
  rw [hext]
  obtain ⟨h1, h2, h3⟩ := hall u (List.mem_cons_self u rest)
  rw [archiveLoop_found_step env msg user u rest eff (lk u) (w u) h1 h2 h3]
  rw [respond_channel_send env msg user (.text (w u)) none
       { eff with lookupCalls := eff.lookupCalls ++ [u] } c ht hc (Or.inl hh)]
  rw [archiveLoop_suppressed env msg user c lk w ht hc rest _ (by simp)
       (fun v hv => hall v (List.mem_cons_of_mem u hv))]
  simp

theorem c9_witness :
    handle_archive_react envFound extTwo msgTwo 7 eff0
      = ({ eff0 with lookupCalls := eff0.lookupCalls ++ ["u1", "u2"],
                     sent := eff0.sent ++ [.toChannel 10 (.text (.str "W"))],
                     handled := eff0.handled ++ [msgTwo.id] }, none) :=
  c9_dedup_message_keyed envFound extTwo msgTwo 7 eff0 10 "u1" ["u2"]
    (fun _ => .obj [("archived_snapshots", .obj [("closest", .obj [("url", .str "W")])])])
    (fun _ => .str "W") (by decide) rfl (by decide) rfl
    (fun _ _ => ⟨rfl, rfl, rfl⟩)

end Archiver

namespace Archiver

theorem waybackKeys : pySplit waybackPath '/' = ["archived_snapshots", "closest", "url"] := rfl

/-- C5 counterexample: the extraction is not total — on the JSON object
`{"archived_snapshots": "yes"}` the key `closest` is absent at its level
(the value is a string, which has no keys), yet `DictQuery.get` raises
AttributeError (calling `.get` on a string) instead of yielding None. -/
theorem c5_cex :
    DictQuery.get (.obj [("archived_snapshots", .str "yes")]) waybackPath
      = .error "AttributeError" :=
  rfl

/-- C5 (amended): the snapshot-lookup field extraction is tolerant on
object-shaped levels but not total.  Part 1: a falsy (or absent, read as
None) value under `archived_snapshots` is returned as-is without raising.
Part 2: likewise one level deeper under `closest`.  Part 3: with truthy
objects down to `closest`, the result is the `url` entry (None when
absent), never an exception.  Part 4: in the workflow, a response carrying
a truthy extracted url string makes that url the reply payload routed
through the Response Router, with no save-trigger call.  (A truthy
non-object intermediate value instead raises AttributeError, per the
counterexample.) -/
theorem c5_extraction :
    (∀ (fs : List (String × Json)) (v : Json),
       (fs.lookup "archived_snapshots").getD Json.null = v → v.truthy = false →
       DictQuery.get (.obj fs) waybackPath = .ok v) ∧
    (∀ (fs gs : List (String × Json)) (v : Json),
       fs.lookup "archived_snapshots" = some (.obj gs) →
       (Json.obj gs).truthy = true →
       (gs.lookup "closest").getD Json.null = v → v.truthy = false →
       DictQuery.get (.obj fs) waybackPath = .ok v) ∧
    (∀ (fs gs hs : List (String × Json)),
       fs.lookup "archived_snapshots" = some (.obj gs) →
       (Json.obj gs).truthy = true →
       gs.lookup "closest" = some (.obj hs) →
       (Json.obj hs).truthy = true →
       DictQuery.get (.obj fs) waybackPath = .ok ((hs.lookup "url").getD Json.null)) ∧
    (∀ (env : Env) (extractor : String → List String) (msg : Message) (user : Nat)
       (eff : Effects) (u : String) (j : Json) (url : String),
       extractor msg.content = [u] →
       env.lookupResp u = .ok j →
       DictQuery.get j waybackPath = .ok (.str url) →
       url ≠ "" →
       handle_archive_react env extractor msg user eff
         = (respond_to_user env msg user (.text (.str url)) none
             { eff with lookupCalls := eff.lookupCalls ++ [u] }, none) ∧
       (handle_archive_react env extractor msg user eff).1.saveCalls = eff.saveCalls) := by
  refine ⟨?_, ?_, ?_, ?_⟩
  · intro fs v h1 h2
    unfold DictQuery.get
    rw [waybackKeys]
    simp [dqLoop, dqStep, pyGet, show Json.null.truthy = false from rfl, h1, h2]
  · intro fs gs v h1 h2 h3 h4
    unfold DictQuery.get
    rw [waybackKeys]
    simp [dqLoop, dqStep, pyGet, show Json.null.truthy = false from rfl, h1, h2, h3, h4]
  · intro fs gs hs h1 h2 h3 h4
    unfold DictQuery.get
    rw [waybackKeys]
    simp [dqLoop, dqStep, pyGet, show Json.null.truthy = false from rfl, h1, h2, h3, h4]
  · intro env extractor msg user eff u j url hext hlk hdq hne
    have htr : (Json.str url).truthy = true := by
      simp [Json.truthy, hne]
    have key : handle_archive_react env extractor msg user eff
        = (respond_to_user env msg user (.text (.str url)) none
            { eff with lookupCalls := eff.lookupCalls ++ [u] }, none) := by
      unfold handle_archive_react
      rw [hext, archiveLoop_found_step env msg user u [] eff j (.str url) hlk hdq htr]
      rw [archiveLoop]
    refine ⟨key, ?_⟩
    rw [key]
    exact respond_saveCalls env msg user (.text (.str url)) none _

end Archiver

namespace Archiver

theorem c5_witness :
    DictQuery.get (.obj []) waybackPath = .ok .null ∧
    DictQuery.get (.obj [("archived_snapshots", .obj [("x", .num 1)])]) waybackPath
      = .ok .null ∧
    DictQuery.get (.obj [("archived_snapshots", .obj [("closest", .obj [("url", .str "W")])])])
      waybackPath = .ok (.str "W") ∧
    (handle_archive_react envFound extOne msgOne 7 eff0
       = (respond_to_user envFound msgOne 7 (.text (.str "W")) none
           { eff0 with lookupCalls := eff0.lookupCalls ++ ["u1"] }, none) ∧
     (handle_archive_react envFound extOne msgOne 7 eff0).1.saveCalls = eff0.saveCalls) :=
  ⟨c5_extraction.1 [] .null rfl rfl,
   c5_extraction.2.1 [("archived_snapshots", .obj [("x", .num 1)])] [("x", .num 1)]
     .null rfl rfl rfl rfl,
   c5_extraction.2.2.1 [("archived_snapshots", .obj [("closest", .obj [("url", .str "W")])])]
     [("closest", .obj [("url", .str "W")])] [("url", .str "W")] rfl rfl rfl rfl,
   c5_extraction.2.2.2 envFound extOne msgOne 7 eff0 "u1"
     (.obj [("archived_snapshots", .obj [("closest", .obj [("url", .str "W")])])]) "W"
     rfl rfl rfl (by decide)⟩

end Archiver
